import Mathlib

/-!
Verification of the encrypted-cache core of tahoestaticfs
(`tahoefuse/cachedb.py`) against its design document.

Bytes are modelled as `List Nat` (each entry `< 256`); machine words are
`Nat` reduced by an explicit `% 2^32` / `% 2^64`.  The cryptographic
primitives (SHA-256, SHA-512, HMAC, HKDF, PBKDF2) are external library
code for the repository, so they are implemented here from their standard
definitions, which is what both the source's libraries and the design
document refer to.
-/

namespace Sha2

/-- Reduce to a 32-bit word. -/
def w32 (n : Nat) : Nat := n % 4294967296

/-- Reduce to a 64-bit word. -/
def w64 (n : Nat) : Nat := n % 18446744073709551616

/-- Right rotation of a 32-bit word. -/
def rotr32 (x n : Nat) : Nat := w32 ((x >>> n) ||| (x <<< (32 - n)))

/-- Right rotation of a 64-bit word. -/
def rotr64 (x n : Nat) : Nat := w64 ((x >>> n) ||| (x <<< (64 - n)))

/-- Bitwise choice, with `mask` giving the word width for complement. -/
def ch (mask x y z : Nat) : Nat := (x &&& y) ^^^ ((mask ^^^ x) &&& z)

/-- Bitwise majority. -/
def maj (x y z : Nat) : Nat := (x &&& y) ^^^ (x &&& z) ^^^ (y &&& z)

/-- `k` bytes of `n`, big-endian. -/
def beBytes : Nat → Nat → List Nat
  | 0, _ => []
  | k + 1, n => beBytes k (n / 256) ++ [n % 256]

/-- Group bytes into big-endian 32-bit words (trailing partial group dropped;
inputs are always a whole number of words). -/
def words32 : List Nat → List Nat
  | b0 :: b1 :: b2 :: b3 :: rest =>
      (((b0 * 256 + b1) * 256 + b2) * 256 + b3) :: words32 rest
  | _ => []

/-- Group bytes into big-endian 64-bit words. -/
def words64 : List Nat → List Nat
  | b0 :: b1 :: b2 :: b3 :: b4 :: b5 :: b6 :: b7 :: rest =>
      (((((((b0 * 256 + b1) * 256 + b2) * 256 + b3) * 256 + b4) * 256 + b5)
          * 256 + b6) * 256 + b7) :: words64 rest
  | _ => []

/-- The eight-word working state shared by SHA-256 and SHA-512. -/
structure State where
  a : Nat
  b : Nat
  c : Nat
  d : Nat
  e : Nat
  f : Nat
  g : Nat
  h : Nat

/-- SHA-2 message-schedule extension: `acc` holds the schedule produced so
far, most recent word first; one step appends
`σ1 w[i-2] + w[i-7] + σ0 w[i-15] + w[i-16]`. -/
def extendSchedule (sigma0 sigma1 : Nat → Nat) (mask : Nat) :
    Nat → List Nat → List Nat
  | 0, acc => acc
  | n + 1, acc =>
      let g := fun (k : Nat) => (acc.get? k).getD 0
      let w := (sigma1 (g 1) + g 6 + sigma0 (g 14) + g 15) % (mask + 1)
      extendSchedule sigma0 sigma1 mask n (w :: acc)

end Sha2

namespace Sha256

open Sha2

def mask : Nat := 4294967295

def K : List Nat :=
  [1116352408, 1899447441, 3049323471, 3921009573, 961987163, 1508970993, 2453635748,
  2870763221, 3624381080, 310598401, 607225278, 1426881987, 1925078388, 2162078206, 2614888103,
  3248222580, 3835390401, 4022224774, 264347078, 604807628, 770255983, 1249150122, 1555081692,
  1996064986, 2554220882, 2821834349, 2952996808, 3210313671, 3336571891, 3584528711,
  113926993, 338241895, 666307205, 773529912, 1294757372, 1396182291, 1695183700, 1986661051,
  2177026350, 2456956037, 2730485921, 2820302411, 3259730800, 3345764771, 3516065817,
  3600352804, 4094571909, 275423344, 430227734, 506948616, 659060556, 883997877, 958139571,
  1322822218, 1537002063, 1747873779, 1955562222, 2024104815, 2227730452, 2361852424,
  2428436474, 2756734187, 3204031479, 3329325298]

def H0 : State :=
  ⟨1779033703, 3144134277, 1013904242, 2773480762, 1359893119, 2600822924, 528734635,
   1541459225⟩

def bigS0 (x : Nat) : Nat := rotr32 x 2 ^^^ rotr32 x 13 ^^^ rotr32 x 22
def bigS1 (x : Nat) : Nat := rotr32 x 6 ^^^ rotr32 x 11 ^^^ rotr32 x 25
def smallS0 (x : Nat) : Nat := rotr32 x 7 ^^^ rotr32 x 18 ^^^ (x >>> 3)
def smallS1 (x : Nat) : Nat := rotr32 x 17 ^^^ rotr32 x 19 ^^^ (x >>> 10)

/-- One SHA-256 round. -/
def round (s : State) (kw : Nat × Nat) : State :=
  let t1 := w32 (s.h + bigS1 s.e + ch mask s.e s.f s.g + kw.1 + kw.2)
  let t2 := w32 (bigS0 s.a + maj s.a s.b s.c)
  ⟨w32 (t1 + t2), s.a, s.b, s.c, w32 (s.d + t1), s.e, s.f, s.g⟩

/-- Compress one 16-word block into the state. -/
def compress (s : State) (ws : List Nat) : State :=
  let sched := (extendSchedule smallS0 smallS1 mask 48 ws.reverse).reverse
  let t := (K.zip sched).foldl round s
  ⟨w32 (s.a + t.a), w32 (s.b + t.b), w32 (s.c + t.c), w32 (s.d + t.d),
   w32 (s.e + t.e), w32 (s.f + t.f), w32 (s.g + t.g), w32 (s.h + t.h)⟩

/-- Fold the compression function over the 16-word blocks of the padded
message. -/
def blocks : State → List Nat → State
  | s, w0 :: w1 :: w2 :: w3 :: w4 :: w5 :: w6 :: w7 :: w8 :: w9 :: w10 :: w11 ::
      w12 :: w13 :: w14 :: w15 :: rest =>
      blocks (compress s [w0, w1, w2, w3, w4, w5, w6, w7, w8, w9, w10, w11, w12,
        w13, w14, w15]) rest
  | s, _ => s

/-- SHA-256 padding: `0x80`, zeros to 56 mod 64, 8-byte big-endian bit length. -/
def pad (msg : List Nat) : List Nat :=
  let L := msg.length
  msg ++ [128] ++ List.replicate ((120 - (L + 1) % 64) % 64) 0 ++ beBytes 8 (8 * L)

/-- SHA-256 of a byte string, as 32 bytes. -/
def sha256 (msg : List Nat) : List Nat :=
  let s := blocks H0 (words32 (pad msg))
  beBytes 4 s.a ++ beBytes 4 s.b ++ beBytes 4 s.c ++ beBytes 4 s.d ++
  beBytes 4 s.e ++ beBytes 4 s.f ++ beBytes 4 s.g ++ beBytes 4 s.h

end Sha256

namespace Sha512

open Sha2

def mask : Nat := 18446744073709551615

def K : List Nat :=
  [4794697086780616226, 8158064640168781261, 13096744586834688815, 16840607885511220156,
  4131703408338449720, 6480981068601479193, 10538285296894168987, 12329834152419229976,
  15566598209576043074, 1334009975649890238, 2608012711638119052, 6128411473006802146,
  8268148722764581231, 9286055187155687089, 11230858885718282805, 13951009754708518548,
  16472876342353939154, 17275323862435702243, 1135362057144423861, 2597628984639134821,
  3308224258029322869, 5365058923640841347, 6679025012923562964, 8573033837759648693,
  10970295158949994411, 12119686244451234320, 12683024718118986047, 13788192230050041572,
  14330467153632333762, 15395433587784984357, 489312712824947311, 1452737877330783856,
  2861767655752347644, 3322285676063803686, 5560940570517711597, 5996557281743188959,
  7280758554555802590, 8532644243296465576, 9350256976987008742, 10552545826968843579,
  11727347734174303076, 12113106623233404929, 14000437183269869457, 14369950271660146224,
  15101387698204529176, 15463397548674623760, 17586052441742319658, 1182934255886127544,
  1847814050463011016, 2177327727835720531, 2830643537854262169, 3796741975233480872,
  4115178125766777443, 5681478168544905931, 6601373596472566643, 7507060721942968483,
  8399075790359081724, 8693463985226723168, 9568029438360202098, 10144078919501101548,
  10430055236837252648, 11840083180663258601, 13761210420658862357, 14299343276471374635,
  14566680578165727644, 15097957966210449927, 16922976911328602910, 17689382322260857208,
  500013540394364858, 748580250866718886, 1242879168328830382, 1977374033974150939,
  2944078676154940804, 3659926193048069267, 4368137639120453308, 4836135668995329356,
  5532061633213252278, 6448918945643986474, 6902733635092675308, 7801388544844847127]

def H0 : State :=
  ⟨7640891576956012808, 13503953896175478587, 4354685564936845355, 11912009170470909681,
   5840696475078001361, 11170449401992604703, 2270897969802886507, 6620516959819538809⟩

def bigS0 (x : Nat) : Nat := rotr64 x 28 ^^^ rotr64 x 34 ^^^ rotr64 x 39
def bigS1 (x : Nat) : Nat := rotr64 x 14 ^^^ rotr64 x 18 ^^^ rotr64 x 41
def smallS0 (x : Nat) : Nat := rotr64 x 1 ^^^ rotr64 x 8 ^^^ (x >>> 7)
def smallS1 (x : Nat) : Nat := rotr64 x 19 ^^^ rotr64 x 61 ^^^ (x >>> 6)

/-- One SHA-512 round. -/
def round (s : State) (kw : Nat × Nat) : State :=
  let t1 := w64 (s.h + bigS1 s.e + ch mask s.e s.f s.g + kw.1 + kw.2)
  let t2 := w64 (bigS0 s.a + maj s.a s.b s.c)
  ⟨w64 (t1 + t2), s.a, s.b, s.c, w64 (s.d + t1), s.e, s.f, s.g⟩

/-- Compress one 16-word block into the state. -/
def compress (s : State) (ws : List Nat) : State :=
  let sched := (extendSchedule smallS0 smallS1 mask 64 ws.reverse).reverse
  let t := (K.zip sched).foldl round s
  ⟨w64 (s.a + t.a), w64 (s.b + t.b), w64 (s.c + t.c), w64 (s.d + t.d),
   w64 (s.e + t.e), w64 (s.f + t.f), w64 (s.g + t.g), w64 (s.h + t.h)⟩

/-- Fold the compression function over the 16-word blocks. -/
def blocks : State → List Nat → State
  | s, w0 :: w1 :: w2 :: w3 :: w4 :: w5 :: w6 :: w7 :: w8 :: w9 :: w10 :: w11 ::
      w12 :: w13 :: w14 :: w15 :: rest =>
      blocks (compress s [w0, w1, w2, w3, w4, w5, w6, w7, w8, w9, w10, w11, w12,
        w13, w14, w15]) rest
  | s, _ => s

/-- SHA-512 padding: `0x80`, zeros to 112 mod 128, 16-byte big-endian bit
length. -/
def pad (msg : List Nat) : List Nat :=
  let L := msg.length
  msg ++ [128] ++ List.replicate ((240 - (L + 1) % 128) % 128) 0 ++ beBytes 16 (8 * L)

/-- SHA-512 of a byte string, as 64 bytes. -/
def sha512 (msg : List Nat) : List Nat :=
  let s := blocks H0 (words64 (pad msg))
  beBytes 8 s.a ++ beBytes 8 s.b ++ beBytes 8 s.c ++ beBytes 8 s.d ++
  beBytes 8 s.e ++ beBytes 8 s.f ++ beBytes 8 s.g ++ beBytes 8 s.h

end Sha512

namespace Crypto

/-- HMAC over an arbitrary hash with the given block size (RFC 2104):
key hashed down if over one block, zero-padded to the block, then
`H((K ^ opad) || H((K ^ ipad) || msg))`. -/
def hmac (H : List Nat → List Nat) (blockSize : Nat) (key msg : List Nat) :
    List Nat :=
  let k0 := if blockSize < key.length then H key else key
  let k1 := k0 ++ List.replicate (blockSize - k0.length) 0
  let ipadded := k1.map (fun b => b ^^^ 54)
  let opadded := k1.map (fun b => b ^^^ 92)
  H (opadded ++ H (ipadded ++ msg))

/-- HMAC-SHA256 (block size 64). -/
def hmacSha256 (key msg : List Nat) : List Nat :=
  hmac Sha256.sha256 64 key msg

/-- HMAC-SHA512 (block size 128). -/
def hmacSha512 (key msg : List Nat) : List Nat :=
  hmac Sha512.sha512 128 key msg

/-- Modelled from the spec: `HKDF_SHA256_extract` lives in the repository's
`tahoefuse/crypto.py`, which is not among the given sources; §4.1 names it
`HKDF-Extract-SHA256(salt, ikm)`, which per RFC 5869 is
`HMAC-SHA256(salt, ikm)`. -/
def HKDF_SHA256_extract (salt ikm : List Nat) : List Nat :=
  hmacSha256 salt ikm

/-- RFC 5869 expand blocks: `T(i) = HMAC(prk, T(i-1) || info || [i])`,
`n` blocks remaining, `tPrev` the previous block, `i` the next counter. -/
def hkdfBlocks (prk info : List Nat) : Nat → List Nat → Nat → List Nat
  | 0, _, _ => []
  | n + 1, tPrev, i =>
      let t := hmacSha256 prk (tPrev ++ info ++ [i])
      t ++ hkdfBlocks prk info n t (i + 1)

/-- Modelled from the spec: `HKDF_SHA256_expand` lives in the repository's
`tahoefuse/crypto.py`, which is not among the given sources; §4.1 names it
`HKDF-Expand-SHA256(PRK, info, L)`, RFC 5869. -/
def HKDF_SHA256_expand (prk info : List Nat) (L : Nat) : List Nat :=
  (hkdfBlocks prk info ((L + 31) / 32) [] 1).take L

/-- PBKDF2 inner iteration: xor-accumulate `c` HMAC applications. -/
def pbkdf2Iter (pw : List Nat) : Nat → List Nat → List Nat → List Nat
  | 0, _, acc => acc
  | c + 1, u, acc =>
      let u1 := hmacSha256 pw u
      pbkdf2Iter pw c u1 (List.zipWith (· ^^^ ·) acc u1)

/-- One PBKDF2 output block `T_i = U_1 ^ ... ^ U_c`,
`U_1 = HMAC(pw, salt || INT_32_BE(i))`. -/
def pbkdf2Block (pw salt : List Nat) (c i : Nat) : List Nat :=
  pbkdf2Iter pw c (salt ++ Sha2.beBytes 4 i) (List.replicate 32 0)

def pbkdf2Blocks (pw salt : List Nat) (c : Nat) : Nat → Nat → List Nat
  | 0, _ => []
  | n + 1, i => pbkdf2Block pw salt c i ++ pbkdf2Blocks pw salt c n (i + 1)

/-- Modelled from the spec: the source calls the external `pbkdf2` package
with `digestmodule=SHA256`; §4.1 names it `PBKDF2-HMAC-SHA256(password,
salt, iters, dkLen)`, RFC 2898. -/
def PBKDF2_HMAC_SHA256 (pw salt : List Nat) (c dkLen : Nat) : List Nat :=
  (pbkdf2Blocks pw salt c ((dkLen + 31) / 32) 1).take dkLen

/-- Lower-case hex digit. -/
def hexChar (n : Nat) : Char :=
  if n < 10 then Char.ofNat (48 + n) else Char.ofNat (87 + n)

/-- Lower-case hex of a byte string (Python's `.hexdigest()`). -/
def hexdigest (bs : List Nat) : String :=
  String.mk (bs.flatMap (fun b => [hexChar (b / 16), hexChar (b % 16)]))

/-- UTF-8 encoding of one Unicode code point. -/
def utf8Char (c : Nat) : List Nat :=
  if c < 128 then [c]
  else if c < 2048 then [192 ||| (c >>> 6), 128 ||| (c &&& 63)]
  else if c < 65536 then
    [224 ||| (c >>> 12), 128 ||| ((c >>> 6) &&& 63), 128 ||| (c &&& 63)]
  else
    [240 ||| (c >>> 18), 128 ||| ((c >>> 12) &&& 63), 128 ||| ((c >>> 6) &&& 63),
     128 ||| (c &&& 63)]

/-- UTF-8 encoding of a Unicode string given as its code points
(Python's `.encode('utf-8')`). -/
def utf8Encode (cps : List Nat) : List Nat :=
  cps.flatMap utf8Char

/-- Python's `.encode('ascii')`: succeeds exactly when every code point is
below 128 (else `UnicodeEncodeError`). -/
def asciiEncode (cps : List Nat) : Option (List Nat) :=
  if cps.all (· < 128) then some cps else none

end Crypto

namespace CacheDB

open Crypto

/-!
## Key schedule (`CacheDB._generate_prk`, `CacheDB.get_filename_and_key`)

`upath` and `rootcap` are Unicode strings, modelled as their lists of code
points.  `get_filename_and_key` returns `os.path.join(self.path, fn)`; the
constant cache-directory component is dropped here, so the first component
of the result is the 128-hex-character basename.
-/

/-- `CacheDB.get_filename_and_key` (cachedb.py:136-151): build `info` from
the UTF-8 path, with `b"//\x00" + ext` appended when `ext` is given; expand
96 bytes of key material; the key is `data[:32]` and the basename is the
hex HMAC-SHA512 digest of `info` under the key `data[32:]`. -/
def get_filename_and_key (prk : List Nat) (upath : List Nat)
    (ext : Option (List Nat)) : String × List Nat :=
  let path := utf8Encode upath
  let info := match ext with
    | none => path
    | some e => path ++ [47, 47, 0] ++ e
  let data := HKDF_SHA256_expand prk info 96
  let key := data.take 32
  let fn := hexdigest (hmacSha512 (data.drop 32) info)
  (fn, key)

/-- The claim's derivation (spec §4.1): identical except that the HMAC-SHA512
key is `okm[32:64]`, i.e. only 32 bytes of the expanded material. -/
def get_filename_and_key_spec (prk : List Nat) (upath : List Nat)
    (ext : Option (List Nat)) : String × List Nat :=
  let path := utf8Encode upath
  let info := match ext with
    | none => path
    | some e => path ++ [47, 47, 0] ++ e
  let okm := HKDF_SHA256_expand prk info 96
  let key := okm.take 32
  let fn := hexdigest (hmacSha512 ((okm.drop 32).take 32) info)
  (fn, key)

/-- `CacheDB._generate_prk` (cachedb.py:40-71), after the salts have been
obtained: the passphrase is `rootcap.encode('ascii')` — `none` models the
`UnicodeEncodeError` escape for non-ASCII root capabilities — then
PBKDF2-HMAC-SHA256 with 100000 iterations reads 32 bytes, and HKDF-Extract
with the second salt gives the PRK. -/
def generate_prk (rootcap salt salt_hkdf : List Nat) : Option (List Nat) :=
  (asciiEncode rootcap).map (fun pw =>
    HKDF_SHA256_extract salt_hkdf (PBKDF2_HMAC_SHA256 pw salt 100000 32))

/-- The claim's derivation (spec §4.1): password is the UTF-8 encoding of an
arbitrary Unicode `rootcap`; total, never failing. -/
def generate_prk_spec (rootcap salt salt_hkdf : List Nat) : List Nat :=
  HKDF_SHA256_extract salt_hkdf
    (PBKDF2_HMAC_SHA256 (utf8Encode rootcap) salt 100000 32)

/-- Reading the salt file (cachedb.py:49-54): `f.read(32)` twice; a short
file raises `ValueError` and the salts are regenerated from the system RNG
(the nondeterministic branch, modelled as `none`). -/
def readSaltFile (contents : List Nat) : Option (List Nat × List Nat) :=
  let salt := contents.take 32
  let salt_hkdf := (contents.drop 32).take 32
  if salt.length == 32 && salt_hkdf.length == 32 then some (salt, salt_hkdf)
  else none

/-- One run of cache open plus one derivation: parse the salt file, derive
the PRK, derive `(basename, key)` for `(upath, ext)`.  `none` when the salt
file is short (fresh random salts, outside the deterministic scope) or the
rootcap is not ASCII. -/
def openAndDerive (contents rootcap upath : List Nat)
    (ext : Option (List Nat)) : Option (String × List Nat) :=
  match readSaltFile contents with
  | none => none
  | some (salt, salt_hkdf) =>
      (generate_prk rootcap salt salt_hkdf).map
        (fun prk => get_filename_and_key prk upath ext)

/-- A second, textually independent copy of the whole pipeline of
`openAndDerive`, standing for the second process that opens the same cache
directory: it shares nothing with the first run but the salt-file bytes and
the rootcap. -/
def openAndDeriveSecondRun (contents rootcap upath : List Nat)
    (ext : Option (List Nat)) : Option (String × List Nat) :=
  let parsed :=
    let s1 := contents.take 32
    let s2 := (contents.drop 32).take 32
    if s1.length == 32 && s2.length == 32 then some (s1, s2) else none
  match parsed with
  | none => none
  | some (salt, salt_hkdf) =>
      match asciiEncode rootcap with
      | none => none
      | some pw =>
          let prk := HKDF_SHA256_extract salt_hkdf
            (PBKDF2_HMAC_SHA256 pw salt 100000 32)
          some (get_filename_and_key prk upath ext)

end CacheDB

namespace CachedFileRead

/-!
## `CachedFile._do_rw` stream-reuse guard (cachedb.py:252)

The guard deciding whether the open remote stream is closed before serving
the next missing range `(c_offset, c_length)` requested by the block cache.
Offsets are byte positions, hence `Nat`.
-/

/-- The guard exactly as written in the source:
`stream_offset < c_offset or c_offset > stream_offset + 10000`. -/
def streamCloseGuard (stream_offset c_offset : Nat) : Bool :=
  decide (stream_offset < c_offset) || decide (c_offset > stream_offset + 10000)

/-- The guard the claim states (spec §4.5.2): close when `c_offset` precedes
`stream_offset` or is more than 10000 bytes ahead of it. -/
def streamCloseGuardSpec (stream_offset c_offset : Nat) : Bool :=
  decide (c_offset < stream_offset) || decide (c_offset > stream_offset + 10000)

end CachedFileRead

/-!
## JSON values and Python evaluation semantics

The node artifacts hold JSON (`json.load`); the scanner and the directory
accessors subscript the decoded value with Python semantics, where the
*class* of the raised exception decides whether the surrounding
`except (IOError, OSError, ValueError)` catches it.
-/

/-- A decoded JSON value (Python 2: `dict`, `list`, `unicode`, numbers,
`bool`, `None`). -/
inductive JsonVal where
  | null
  | bool (b : Bool)
  | num (n : Int)
  | str (s : String)
  | arr (xs : List JsonVal)
  | obj (kvs : List (String × JsonVal))

/-- The Python exception classes the modelled code can raise.  `ioError`
covers `IOError`/`OSError` (carrying errno and message). -/
inductive PyErr where
  | ioError (num : Nat) (msg : String)
  | valueError
  | keyError
  | indexError
  | typeError
  | attributeError
  deriving DecidableEq

/-- Whether `except (IOError, OSError, ValueError)` catches the exception. -/
def PyErr.caught : PyErr → Bool
  | .ioError _ _ => true
  | .valueError => true
  | _ => false

namespace PySem

/-- Python `x[i]` for a non-negative integer `i`: lists index (IndexError
past the end), strings index to a one-character string, dicts raise KeyError
(an integer is never one of these JSON dicts' string keys), everything else
raises TypeError. -/
def subscriptNat (j : JsonVal) (i : Nat) : Except PyErr JsonVal :=
  match j with
  | .arr xs =>
      match xs.get? i with
      | some v => .ok v
      | none => .error .indexError
  | .str s =>
      match s.toList.get? i with
      | some c => .ok (.str (String.mk [c]))
      | none => .error .indexError
  | .obj _ => .error .keyError
  | _ => .error .typeError

/-- Python `x[k]` for a string key: dicts look up (KeyError when absent),
lists and strings raise TypeError, everything else TypeError. -/
def subscriptStr (j : JsonVal) (k : String) : Except PyErr JsonVal :=
  match j with
  | .obj kvs =>
      match kvs.find? (fun kv => kv.1 == k) with
      | some kv => .ok kv.2
      | none => .error .keyError
  | _ => .error .typeError

/-- Python `x == s` against a string literal: strings compare by value,
any other type is simply unequal (no exception). -/
def eqStr (j : JsonVal) (s : String) : Bool :=
  match j with
  | .str t => t == s
  | _ => false

/-- Python `x.get(k, default)`: only dicts have `.get`
(AttributeError otherwise). -/
def dictGet (j : JsonVal) (k : String) (dflt : JsonVal) :
    Except PyErr JsonVal :=
  match j with
  | .obj kvs =>
      match kvs.find? (fun kv => kv.1 == k) with
      | some kv => .ok kv.2
      | none => .ok dflt
  | _ => .error .attributeError

/-- Python `x.items()`: only dicts (AttributeError otherwise). -/
def items (j : JsonVal) : Except PyErr (List (String × JsonVal)) :=
  match j with
  | .obj kvs => .ok kvs
  | _ => .error .attributeError

end PySem

/-!
## On-disk cache model

The cache directory is flat; a run of the scanner or a constructor sees it
as a partial map from basename to file content.  What matters about a
file's content is how far the pipeline `CryptFile(...)` / `json.load` gets.
-/

/-- Content of one cache file, as seen through `CryptFile` + `json.load`:
`corrupt` — opening, decrypting or JSON-parsing raises one of
`IOError`/`OSError`/`ValueError`; `truncated` — a freshly created empty
encrypted file (reads as corrupt too); `plain j` — decodes to the JSON
value `j`; `blob ok` — a non-JSON binary artifact (state/data files),
`ok` recording whether it opens cleanly in `r+b` mode and restores. -/
inductive FileData where
  | corrupt
  | truncated
  | plain (j : JsonVal)
  | blob (ok : Bool)

/-- The flat cache directory: basename to content, `none` when absent. -/
def FS : Type := String → Option FileData

/-- Create or overwrite a file (CryptFile `w+b`, `json.dump`, ...). -/
def fsSet (fs : FS) (k : String) (v : FileData) : FS :=
  fun n => if n == k then some v else fs n

/-- `os.unlink`. -/
def fsDel (fs : FS) (k : String) : FS :=
  fun n => if n == k then none else fs n

/-- The warm-open pipeline for a node artifact: `CryptFile(fn, 'rb')` +
`json.load` yields a value exactly when the file is present and `plain`. -/
def nodeRead (fs : FS) (fn : String) : Option JsonVal :=
  match fs fn with
  | some (.plain j) => some j
  | _ => none

namespace Scanner

open PySem

/-!
## Liveness scanner (`CacheDB._load_alive_files`, cachedb.py:73-115)

The scan is parametrised by `derive`, standing for
`self.get_filename_and_key` restricted to the basename it returns (the key
only feeds the already-modelled `CryptFile` pipeline); `derive u ext` is
the basename of the artifact for upath `u` and extension tag `ext`
(`none` / `"state"` / `"data"`).

The Python stack (`list.append` / `list.pop`) is modelled with its top at
the head: pushing the dirnode children `c1, ..., cn` in loop order makes
`cn` the next entry popped, hence the `.reverse` on the push list.
-/

/-- One stack entry `(upath, fn, key)`; the key is consumed by the
`CryptFile` pipeline already folded into `FileData`. -/
structure Entry where
  upath : String
  fn : String

/-- `os.path.join(upath, childname)` for a normalized relative `upath`. -/
def pathJoin (u c : String) : String :=
  if u = "" then c else u ++ "/" ++ c

/-- Outcome of the guarded block at cachedb.py:95-102. -/
inductive LoadOutcome where
  | skip
  | crash (e : PyErr)
  | ok (children : List (String × JsonVal))

/-- The body of the `try` at cachedb.py:95-102 on a decoded JSON value:
`data[0]`, the `!= u'dirnode'` test (an explicit `ValueError`, caught),
`data[1]`, `.get(u'children', {})`, `.items()`.  An exception is a `skip`
exactly when `except (IOError, OSError, ValueError)` catches it, and a
`crash` of the whole scan otherwise. -/
def tryLoadJson (data : JsonVal) : LoadOutcome :=
  match subscriptNat data 0 with
  | .error e => if e.caught then .skip else .crash e
  | .ok d0 =>
    if !eqStr d0 "dirnode" then .skip
    else
      match subscriptNat data 1 with
      | .error e => if e.caught then .skip else .crash e
      | .ok d1 =>
        match dictGet d1 "children" (.obj []) with
        | .error e => if e.caught then .skip else .crash e
        | .ok c =>
          match items c with
          | .error e => if e.caught then .skip else .crash e
          | .ok kvs => .ok kvs

/-- The same block including the `CryptFile` open and `json.load`
(failures there are `IOError`/`OSError`/`ValueError`, all caught). -/
def tryLoad : FileData → LoadOutcome
  | .corrupt => .skip
  | .truncated => .skip
  | .blob _ => .skip
  | .plain j => tryLoadJson j

/-- The `for c_fn, c_info in children` loop (cachedb.py:106-115): returns
the `(basename, upath)` pairs appended to `alive_files` and the entries
appended to the stack, both in loop order.  `c_info[0]` is evaluated with
Python semantics and is *outside* any `try`: its exceptions abort the scan. -/
def processChildren (fs : FS) (derive : String → Option String → String)
    (upath : String) :
    List (String × JsonVal) →
    Except PyErr (List (String × String) × List Entry)
  | [] => .ok ([], [])
  | (c_fn, c_info) :: rest =>
    let c_upath := pathJoin upath c_fn
    match subscriptNat c_info 0 with
    | .error e => .error e
    | .ok d =>
      match processChildren fs derive upath rest with
      | .error e => .error e
      | .ok (adds, pushes) =>
        if eqStr d "dirnode" then
          let c_base := derive c_upath none
          if (fs c_base).isSome then
            .ok (adds, ⟨c_upath, c_base⟩ :: pushes)
          else
            .ok (adds, pushes)
        else if eqStr d "filenode" then
          .ok ((derive c_upath none, c_upath) ::
               (derive c_upath (some "state"), c_upath) ::
               (derive c_upath (some "data"), c_upath) :: adds, pushes)
        else
          .ok (adds, pushes)

/-- The `while stack` loop (cachedb.py:89-115), with fuel standing in for
the unbounded iteration (the loop need not terminate on adversarial
directory contents); every theorem instantiates enough fuel.  On an
uncaught exception the constructor aborts and `alive_files` is never
consumed, so the partial list is dropped with `.error`. -/
def scanLoop (fs : FS) (derive : String → Option String → String) :
    Nat → List Entry → Except PyErr (List (String × String))
  | 0, _ => .ok []
  | _ + 1, [] => .ok []
  | fuel + 1, e :: stack =>
    match fs e.fn with
    | none => scanLoop fs derive fuel stack
    | some fd =>
      match tryLoad fd with
      | .skip => scanLoop fs derive fuel stack
      | .crash err => .error err
      | .ok children =>
        match processChildren fs derive e.upath children with
        | .error err => .error err
        | .ok (adds, pushes) =>
          match scanLoop fs derive fuel (pushes.reverse ++ stack) with
          | .error err => .error err
          | .ok tail => .ok ((e.fn, e.upath) :: adds ++ tail)

/-- `CacheDB._load_alive_files` from the root (cachedb.py:83-86): the root
entry is pushed only when its artifact exists. -/
def loadAliveFiles (fs : FS) (derive : String → Option String → String)
    (fuel : Nat) : Except PyErr (List (String × String)) :=
  let rootFn := derive "" none
  match fs rootFn with
  | some _ => scanLoop fs derive fuel [⟨"", rootFn⟩]
  | none => .ok []

end Scanner

/-- `CacheDB._cleanup` (cachedb.py:117-124): the files *remaining* after
the unlink pass over `os.listdir` — every basename that is `salt` or
occurs as a first component of `alive_files`. -/
def cleanup (listing : List String) (alive_files : List (String × String)) :
    List String :=
  listing.filter (fun b => b == "salt" || (alive_files.map Prod.fst).contains b)

/-!
## Constructors (`CachedDir.__init__`, `CachedFile.__init__`)

`getInfo` is the outcome of the remote `io.get_info(upath)` call: `.error`
stands for the caught `HTTPError`/`ValueError` failures.  Results pair the
Python outcome (returned info, or raised exception) with the cache
directory after the call.  errno values: `ENOENT = 2`, `EBADF = 9`,
`EFAULT = 14`.
-/

/-- `CachedDir.__init__` (cachedb.py:285-302): warm path returns the cached
info untouched; otherwise a fresh artifact is created (`w+b`), and either
filled from `io.get_info` or — when the fetch fails — unlinked again with
`IOError(EFAULT, "failed to retrieve information")` raised. -/
def cachedDirInit (fs : FS) (fn : String) (getInfo : Except Unit JsonVal) :
    Except PyErr JsonVal × FS :=
  match nodeRead fs fn with
  | some info => (.ok info, fs)
  | none =>
    let fs1 := fsSet fs fn .truncated
    match getInfo with
    | .error _ =>
        (.error (.ioError 14 "failed to retrieve information"), fsDel fs1 fn)
    | .ok info => (.ok info, fsSet fs1 fn (.plain info))

/-- `CachedFile.__init__` (cachedb.py:158-207): the warm path needs the
node artifact to decode and both the state and data artifacts to open in
`r+b` and restore; any failure there closes the streams and enters the
cold path, which creates the node artifact, fetches the remote info —
unlinking the node artifact and raising
`IOError(EFAULT, "failed to retrieve information")` when the fetch fails —
then writes the info and creates the random-filled data artifact and the
empty state artifact. -/
def cachedFileInit (fs : FS) (fn fnState fnData : String)
    (getInfo : Except Unit JsonVal) : Except PyErr JsonVal × FS :=
  match nodeRead fs fn, fs fnState, fs fnData with
  | some info, some (.blob true), some (.blob true) => (.ok info, fs)
  | _, _, _ =>
    let fs1 := fsSet fs fn .truncated
    match getInfo with
    | .error _ =>
        (.error (.ioError 14 "failed to retrieve information"), fsDel fs1 fn)
    | .ok info =>
        (.ok info,
         fsSet (fsSet (fsSet fs1 fn (.plain info)) fnData (.blob true))
           fnState (.blob true))

/-!
## `CachedDir.get_child_attr` (cachedb.py:320-337)

The children map `self.info[1][u'children']` is taken as given (the claims
quantify over it); the lookup and the attribute accesses follow Python
evaluation order: the `dict(...)` call evaluates `size` before the
`metadata` chain.
-/

/-- The result dict of `get_child_attr`. -/
structure Attr where
  type : String
  size : Option JsonVal
  ctime : JsonVal
  mtime : JsonVal

/-- `attrs[u'metadata'][u'tahoe'][u'linkcrtime']`. -/
def linkcrtimeOf (attrs : JsonVal) : Except PyErr JsonVal :=
  PySem.subscriptStr attrs "metadata" >>= fun m =>
  PySem.subscriptStr m "tahoe" >>= fun t =>
  PySem.subscriptStr t "linkcrtime"

/-- `info[1][u'metadata'][u'tahoe'][u'linkcrtime']`. -/
def metadataChain (info : JsonVal) : Except PyErr JsonVal :=
  PySem.subscriptNat info 1 >>= linkcrtimeOf

/-- `info[1]['size']`. -/
def sizeField (info : JsonVal) : Except PyErr JsonVal :=
  PySem.subscriptNat info 1 >>= fun a => PySem.subscriptStr a "size"

/-- `CachedDir.get_child_attr`: absent child raises
`IOError(ENOENT, "no such entry")`; a `dirnode` child yields a dir attr
with `ctime = mtime = linkcrtime`; a `filenode` child additionally carries
`size`; any other discriminant raises `IOError(EBADF, "invalid entry")`.
Field accesses raise through with Python semantics. -/
def get_child_attr (children : List (String × JsonVal)) (childname : String) :
    Except PyErr Attr :=
  match children.find? (fun kv => kv.1 == childname) with
  | none => .error (.ioError 2 "no such entry")
  | some kv =>
    let info := kv.2
    match PySem.subscriptNat info 0 with
    | .error e => .error e
    | .ok d =>
      if PySem.eqStr d "dirnode" then
        match metadataChain info with
        | .error e => .error e
        | .ok t => .ok ⟨"dir", none, t, t⟩
      else if PySem.eqStr d "filenode" then
        match sizeField info with
        | .error e => .error e
        | .ok sz =>
          match metadataChain info with
          | .error e => .error e
          | .ok t => .ok ⟨"file", some sz, t, t⟩
      else .error (.ioError 9 "invalid entry")


/-- C2 amended reading of spec §4.1: `mac_key = okm[32:96]` (the remaining
64 bytes of the expanded material), everything else as §4.1 states it. -/
def CacheDB.get_filename_and_key_spec_amended (prk : List Nat)
    (upath : List Nat) (ext : Option (List Nat)) : String × List Nat :=
  let path := Crypto.utf8Encode upath
  let info := match ext with
    | none => path
    | some e => path ++ [47, 47, 0] ++ e
  let okm := Crypto.HKDF_SHA256_expand prk info 96
  let key := okm.take 32
  let mac_key := okm.drop 32
  (Crypto.hexdigest (Crypto.hmacSha512 mac_key info), key)

/-- C5 counterexample file system: the root node artifact decodes to
`["dirnode"]` — JSON that is not a two-element sequence — and no other
file exists. -/
def scanCrashFS : FS := fun n =>
  if n == "rootbase" then some (.plain (.arr [.str "dirnode"])) else none

/-- Naming function for the C5 counterexample. -/
def scanCrashDerive : String → Option String → String := fun _ _ => "rootbase"

/-- File system for the C5 witness: everything is a corrupt artifact. -/
def skipFS : FS := fun _ => some .corrupt

/-- File system for the C5 witness crash half: the artifact holds `[]`. -/
def crashFS : FS := fun _ => some (.plain (.arr []))

/-- C10 input: a present `filenode` child whose attributes have the
`metadata.tahoe.linkcrtime` chain but no `size` key. -/
def keyErrorChildren : List (String × JsonVal) :=
  [("a", .arr [.str "filenode",
    .obj [("metadata", .obj [("tahoe", .obj [("linkcrtime", .num 1)])])]])]

/-- The children map used by the C8 witness: one well-formed `dirnode`
child, one well-formed `filenode` child, one `symlink` child. -/
def attrChildren : List (String × JsonVal) :=
  [("d", .arr [.str "dirnode",
     .obj [("metadata", .obj [("tahoe", .obj [("linkcrtime", .num 5)])])]]),
   ("f", .arr [.str "filenode",
     .obj [("size", .num 3),
           ("metadata", .obj [("tahoe", .obj [("linkcrtime", .num 7)])])]]),
   ("s", .arr [.str "symlink", .obj []])]

/-!
## Supporting lemmas
-/

theorem beBytes_length (k n : Nat) : (Sha2.beBytes k n).length = k := by
  induction k generalizing n with
  | zero => rfl
  | succ k ih => simp [Sha2.beBytes, ih]

theorem sha512_length (msg : List Nat) : (Sha512.sha512 msg).length = 64 := by
  simp [Sha512.sha512, beBytes_length]

theorem hmacSha512_length (key msg : List Nat) :
    (Crypto.hmacSha512 key msg).length = 64 := by
  simp [Crypto.hmacSha512, Crypto.hmac, sha512_length]

theorem hexlist_length (bs : List Nat) :
    (bs.flatMap (fun b =>
      [Crypto.hexChar (b / 16), Crypto.hexChar (b % 16)])).length = 2 * bs.length := by
  induction bs with
  | nil => rfl
  | cons b tl ih => simp [List.flatMap_cons, ih]; omega

theorem hexdigest_length (bs : List Nat) :
    (Crypto.hexdigest bs).length = 2 * bs.length := by
  simpa [Crypto.hexdigest] using hexlist_length bs

theorem utf8Encode_ascii (cps : List Nat) (h : cps.all (· < 128) = true) :
    Crypto.utf8Encode cps = cps := by
  induction cps with
  | nil => rfl
  | cons c tl ih =>
      simp_all [Crypto.utf8Encode, Crypto.utf8Char, List.all_cons]

/-!
## Claims
-/

/-- C1: the stream-reuse guard of `CachedFile._do_rw` diverges from the
specified rule on both sides: a stream only 5 bytes behind the requested
offset is closed by the code (the spec keeps it and reads forward), and a
stream already past the requested offset is kept by the code (the spec
closes it); moreover the code's guard collapses to `stream_offset <
c_offset`, making the 10000-byte threshold dead. -/
theorem streamCloseGuard_code_bug :
    CachedFileRead.streamCloseGuard 0 5 = true ∧
    CachedFileRead.streamCloseGuardSpec 0 5 = false ∧
    CachedFileRead.streamCloseGuard 10 0 = false ∧
    CachedFileRead.streamCloseGuardSpec 10 0 = true ∧
    ∀ s c, CachedFileRead.streamCloseGuard s c = decide (s < c) := by
  refine ⟨by decide, by decide, by decide, by decide, fun s c => ?_⟩
  simp only [CachedFileRead.streamCloseGuard]
  rcases Nat.lt_or_ge s c with h | h
  · simp [h]
  · simp [Nat.not_lt_of_le h]
    omega

set_option maxRecDepth 100000 in
/-- C2 counterexample: with the all-zero PRK and the root upath the
basename the code computes (HMAC-SHA512 keyed by `okm[32:96]`) differs
from the one the claim states (keyed by `okm[32:64]`). -/
theorem get_filename_and_key_slice_counterexample :
    (CacheDB.get_filename_and_key (List.replicate 32 0) [] none).1 ≠
      (CacheDB.get_filename_and_key_spec (List.replicate 32 0) [] none).1 := by
  decide

/-- C2 amended: the derivation matches the spec once `mac_key` is read as
`okm[32:96]` (the remaining 64 bytes), and the basename always has 128
characters. -/
theorem get_filename_and_key_amended (prk upath : List Nat)
    (ext : Option (List Nat)) :
    CacheDB.get_filename_and_key prk upath ext =
      CacheDB.get_filename_and_key_spec_amended prk upath ext ∧
    (CacheDB.get_filename_and_key prk upath ext).1.length = 128 := by
  refine ⟨rfl, ?_⟩
  cases ext <;>
    simp [CacheDB.get_filename_and_key, hexdigest_length, hmacSha512_length]

/-- C3 counterexample: for the one-character rootcap U+00E9, an arbitrary
Unicode string, `_generate_prk` derives nothing at all —
`rootcap.encode('ascii')` raises `UnicodeEncodeError` — instead of running
PBKDF2 over the UTF-8 encoding as the claim states. -/
theorem generate_prk_nonascii_counterexample :
    CacheDB.generate_prk [233] (List.replicate 32 0) (List.replicate 32 1) =
      none := by
  rfl

/-- C3 amended: for an all-ASCII rootcap (the only kind the code accepts;
ASCII and UTF-8 encodings coincide there) the cache open derives
`K = PBKDF2-HMAC-SHA256(UTF-8(rootcap), salt_pbkdf, 100000, 32)` and
returns `PRK = HKDF-Extract-SHA256(salt_hkdf, K)`. -/
theorem generate_prk_ascii (rootcap salt salt_hkdf : List Nat)
    (h : rootcap.all (· < 128) = true) :
    CacheDB.generate_prk rootcap salt salt_hkdf =
      some (Crypto.HKDF_SHA256_extract salt_hkdf
        (Crypto.PBKDF2_HMAC_SHA256 (Crypto.utf8Encode rootcap) salt 100000 32)) := by
  simp [CacheDB.generate_prk, Crypto.asciiEncode, h, utf8Encode_ascii rootcap h]

/-- C3 witness: the amended statement at the concrete rootcap "URI". -/
theorem generate_prk_ascii_witness :
    ([85, 82, 73].all (· < 128) = true) ∧
    CacheDB.generate_prk [85, 82, 73] (List.replicate 32 0) (List.replicate 32 1) =
      some (Crypto.HKDF_SHA256_extract (List.replicate 32 1)
        (Crypto.PBKDF2_HMAC_SHA256 (Crypto.utf8Encode [85, 82, 73])
          (List.replicate 32 0) 100000 32)) :=
  ⟨by decide, generate_prk_ascii [85, 82, 73] _ _ (by decide)⟩

/-- C4: `_cleanup` keeps exactly `salt` and the live basenames: every file
remaining whose basename is not `salt` is in the live set, and every listed
file that is neither `salt` nor live is unlinked. -/
theorem cleanup_gc_closure (listing : List String)
    (alive_files : List (String × String)) (b : String) :
    (b ∈ cleanup listing alive_files → b ≠ "salt" →
       b ∈ alive_files.map Prod.fst) ∧
    (b ∈ listing → b ≠ "salt" → b ∉ alive_files.map Prod.fst →
       b ∉ cleanup listing alive_files) := by
  constructor
  · intro hmem hb
    rcases List.mem_filter.mp hmem with ⟨-, hp⟩
    have hp2 : b = "salt" ∨ ∃ x, (b, x) ∈ alive_files := by simpa using hp
    rcases hp2 with h | ⟨x, hx⟩
    · exact absurd h hb
    · exact List.mem_map.mpr ⟨(b, x), hx, rfl⟩
  · intro hmem hb hlive hc
    rcases List.mem_filter.mp hc with ⟨-, hp⟩
    have hp2 : b = "salt" ∨ ∃ x, (b, x) ∈ alive_files := by simpa using hp
    rcases hp2 with h | ⟨x, hx⟩
    · exact hb h
    · exact hlive (List.mem_map.mpr ⟨(b, x), hx, rfl⟩)

/-- C4 witness: with live set `{aa}`, the remaining file `aa` is live and
the dead `bb` is unlinked. -/
theorem cleanup_gc_closure_witness :
    "aa" ∈ ([("aa", "u")].map Prod.fst) ∧
    "bb" ∉ cleanup ["salt", "aa", "bb"] [("aa", "u")] :=
  ⟨(cleanup_gc_closure ["salt", "aa", "bb"] [("aa", "u")] "aa").1
     (by decide) (by decide),
   (cleanup_gc_closure ["salt", "aa", "bb"] [("aa", "u")] "bb").2
     (by decide) (by decide) (by decide)⟩

/-- C9: two independent opens of the same cache directory — two textually
separate copies of the parse/PBKDF2/HKDF/derive pipeline sharing only the
salt-file bytes and the rootcap — produce identical `(basename, key)`
pairs for every `(rootcap, upath, tag)`; and a 64-byte salt file always
parses, so the derivation is a function of
`(salt file contents, rootcap, upath, tag)` alone. -/
theorem openAndDerive_deterministic (contents rootcap upath : List Nat)
    (ext : Option (List Nat)) :
    CacheDB.openAndDerive contents rootcap upath ext =
      CacheDB.openAndDeriveSecondRun contents rootcap upath ext ∧
    (contents.length = 64 → (CacheDB.readSaltFile contents).isSome = true) := by
  constructor
  · simp only [CacheDB.openAndDerive, CacheDB.openAndDeriveSecondRun,
      CacheDB.readSaltFile, CacheDB.generate_prk]
    cases h : Crypto.asciiEncode rootcap <;>
      cases hs : (contents.take 32).length == 32 &&
        (((contents.drop 32).take 32).length == 32) <;>
        simp [hs, h, Option.map]
  · intro h
    simp [CacheDB.readSaltFile, List.length_take, List.length_drop, h]

/-- C9 witness: the determinism statement at a concrete 64-byte salt file. -/
theorem openAndDerive_deterministic_witness :
    CacheDB.openAndDerive (List.replicate 64 7) [97] [] none =
      CacheDB.openAndDeriveSecondRun (List.replicate 64 7) [97] [] none ∧
    (CacheDB.readSaltFile (List.replicate 64 7)).isSome = true :=
  ⟨(openAndDerive_deterministic (List.replicate 64 7) [97] [] none).1,
   (openAndDerive_deterministic (List.replicate 64 7) [97] [] none).2 (by decide)⟩

/-- C10: on a `filenode` child lacking `size`, `get_child_attr` raises a
`KeyError` — an error that is neither the documented not-found
(`IOError(ENOENT)`) nor bad-entry (`IOError(EBADF)`). -/
theorem get_child_attr_keyerror :
    get_child_attr keyErrorChildren "a" = .error .keyError ∧
    PyErr.keyError ≠ .ioError 2 "no such entry" ∧
    PyErr.keyError ≠ .ioError 9 "invalid entry" :=
  ⟨rfl, by decide, by decide⟩

/-- C5 counterexample: popping an entry whose file exists and holds the
schema-violating JSON `["dirnode"]` does not skip the entry — `data[1]`
raises an `IndexError` that `except (IOError, OSError, ValueError)` does
not catch, and the whole scan aborts instead of continuing with the
remaining stack (which alone would give `.ok []`). -/
theorem scanLoop_schema_crash_counterexample :
    Scanner.scanLoop scanCrashFS scanCrashDerive 5 [⟨"", "rootbase"⟩] =
      .error .indexError ∧
    Scanner.scanLoop scanCrashFS scanCrashDerive 4 [] = .ok [] :=
  ⟨rfl, rfl⟩

/-- C5 amended: a popped entry whose file exists is skipped — scan equal to
the scan of the remaining stack — exactly for failures raised as
`IOError`/`OSError`/`ValueError` (open/decrypt/JSON-syntax failures and a
first element unequal to `"dirnode"`); an uncaught exception from the
other schema violations aborts the scan with that error. -/
theorem scanLoop_skip_caught_abort_uncaught (fs : FS)
    (derive : String → Option String → String) (fuel : Nat)
    (e : Scanner.Entry) (stack : List Scanner.Entry) (fd : FileData)
    (h : fs e.fn = some fd) :
    (Scanner.tryLoad fd = .skip →
      Scanner.scanLoop fs derive (fuel + 1) (e :: stack) =
        Scanner.scanLoop fs derive fuel stack) ∧
    (∀ err, Scanner.tryLoad fd = .crash err →
      Scanner.scanLoop fs derive (fuel + 1) (e :: stack) = .error err) := by
  constructor
  · intro hs
    simp [Scanner.scanLoop, h, hs]
  · intro err hc
    simp [Scanner.scanLoop, h, hc]

/-- C5 witness: a corrupt root is skipped (scan continues as the empty
scan), and a root decoding to `[]` aborts with `IndexError`. -/
theorem scanLoop_skip_caught_abort_uncaught_witness :
    (Scanner.scanLoop skipFS scanCrashDerive 1 [⟨"", "rootbase"⟩] =
      Scanner.scanLoop skipFS scanCrashDerive 0 []) ∧
    (Scanner.scanLoop crashFS scanCrashDerive 1 [⟨"", "rootbase"⟩] =
      .error .indexError) :=
  ⟨(scanLoop_skip_caught_abort_uncaught skipFS scanCrashDerive 0
      ⟨"", "rootbase"⟩ [] .corrupt rfl).1 rfl,
   (scanLoop_skip_caught_abort_uncaught crashFS scanCrashDerive 0
      ⟨"", "rootbase"⟩ [] (.plain (.arr [])) rfl).2 .indexError rfl⟩

/-- C6: a child whose discriminant evaluates to `"filenode"` contributes
the basenames of all three artifacts (tags `none`, `state`, `data`) for
its upath to `alive_files`, for *every* file system `fs` — the additions
never consult the disk — while pushing nothing on the stack for it. -/
theorem filenode_children_added_unconditionally (fs : FS)
    (derive : String → Option String → String) (upath name : String)
    (info : JsonVal) (rest : List (String × JsonVal))
    (adds : List (String × String)) (pushes : List Scanner.Entry)
    (hdisc : PySem.subscriptNat info 0 = .ok (.str "filenode"))
    (hrest : Scanner.processChildren fs derive upath rest = .ok (adds, pushes)) :
    Scanner.processChildren fs derive upath ((name, info) :: rest) =
      .ok ((derive (Scanner.pathJoin upath name) none,
              Scanner.pathJoin upath name) ::
           (derive (Scanner.pathJoin upath name) (some "state"),
              Scanner.pathJoin upath name) ::
           (derive (Scanner.pathJoin upath name) (some "data"),
              Scanner.pathJoin upath name) :: adds, pushes) := by
  simp [Scanner.processChildren, hdisc, hrest, PySem.eqStr]

/-- C6 witness: the statement at a one-child directory over the empty file
system. -/
theorem filenode_children_added_unconditionally_witness :
    Scanner.processChildren (fun _ => none)
        (fun u t => u ++ "|" ++ t.getD "n") "p"
        [("c", .arr [.str "filenode", .obj []])] =
      .ok ([("p/c|n", "p/c"), ("p/c|state", "p/c"), ("p/c|data", "p/c")], []) :=
  filenode_children_added_unconditionally (fun _ => none)
    (fun u t => u ++ "|" ++ t.getD "n") "p" "c" (.arr [.str "filenode", .obj []])
    [] [] [] rfl rfl

/-- C7: on the cold path (warm open failed) of both constructors, a failed
`io.get_info` yields `IOError(EFAULT, "failed to retrieve information")`
and the freshly created node artifact is unlinked: the final cache
directory has no entry at its basename. -/
theorem getinfo_failure_unlinks_info (fs : FS) (fn fnState fnData : String)
    (h : nodeRead fs fn = none) :
    (cachedDirInit fs fn (.error ())).1 =
      .error (.ioError 14 "failed to retrieve information") ∧
    (cachedDirInit fs fn (.error ())).2 fn = none ∧
    (cachedFileInit fs fn fnState fnData (.error ())).1 =
      .error (.ioError 14 "failed to retrieve information") ∧
    (cachedFileInit fs fn fnState fnData (.error ())).2 fn = none := by
  refine ⟨?_, ?_, ?_, ?_⟩ <;>
    simp [cachedDirInit, cachedFileInit, h, fsDel, fsSet]

/-- C7 witness: the statement over the empty cache directory. -/
theorem getinfo_failure_unlinks_info_witness :
    (cachedDirInit (fun _ => none) "n" (.error ())).1 =
      .error (.ioError 14 "failed to retrieve information") ∧
    (cachedDirInit (fun _ => none) "n" (.error ())).2 "n" = none ∧
    (cachedFileInit (fun _ => none) "n" "s" "d" (.error ())).1 =
      .error (.ioError 14 "failed to retrieve information") ∧
    (cachedFileInit (fun _ => none) "n" "s" "d" (.error ())).2 "n" = none :=
  getinfo_failure_unlinks_info (fun _ => none) "n" "s" "d" rfl

/-- C8: `get_child_attr` behaves as specified in all four cases: an absent
child raises the not-found `IOError(ENOENT, "no such entry")`; a `dirnode`
child with a well-formed metadata chain yields a dir attr with
`ctime = mtime = linkcrtime` and no size; a `filenode` child additionally
carries `size`; any other discriminant raises the bad-entry
`IOError(EBADF, "invalid entry")`. -/
theorem get_child_attr_cases (children : List (String × JsonVal))
    (childname : String) :
    (children.find? (fun kv => kv.1 == childname) = none →
      get_child_attr children childname = .error (.ioError 2 "no such entry")) ∧
    (∀ (c : String) (attrs t : JsonVal),
      children.find? (fun kv => kv.1 == childname) =
          some (c, .arr [.str "dirnode", attrs]) →
      linkcrtimeOf attrs = .ok t →
      get_child_attr children childname = .ok ⟨"dir", none, t, t⟩) ∧
    (∀ (c : String) (attrs t sz : JsonVal),
      children.find? (fun kv => kv.1 == childname) =
          some (c, .arr [.str "filenode", attrs]) →
      PySem.subscriptStr attrs "size" = .ok sz →
      linkcrtimeOf attrs = .ok t →
      get_child_attr children childname = .ok ⟨"file", some sz, t, t⟩) ∧
    (∀ (c : String) (d attrs : JsonVal),
      children.find? (fun kv => kv.1 == childname) =
          some (c, .arr [d, attrs]) →
      PySem.eqStr d "dirnode" = false → PySem.eqStr d "filenode" = false →
      get_child_attr children childname = .error (.ioError 9 "invalid entry")) := by
  refine ⟨?_, ?_, ?_, ?_⟩
  · intro h
    simp [get_child_attr, h]
  · intro c attrs t hfind hlink
    simp [get_child_attr, hfind, PySem.subscriptNat, PySem.eqStr,
      metadataChain, Bind.bind, Except.bind, hlink]
  · intro c attrs t sz hfind hsize hlink
    simp [get_child_attr, hfind, PySem.subscriptNat, PySem.eqStr,
      metadataChain, sizeField, Bind.bind, Except.bind, hsize, hlink]
  · intro c d attrs hfind hd hf
    simp [get_child_attr, hfind, PySem.subscriptNat, hd, hf]

/-- C8 witness: all four cases at the concrete children map. -/
theorem get_child_attr_cases_witness :
    get_child_attr attrChildren "absent" = .error (.ioError 2 "no such entry") ∧
    get_child_attr attrChildren "d" = .ok ⟨"dir", none, .num 5, .num 5⟩ ∧
    get_child_attr attrChildren "f" = .ok ⟨"file", some (.num 3), .num 7, .num 7⟩ ∧
    get_child_attr attrChildren "s" = .error (.ioError 9 "invalid entry") :=
  ⟨(get_child_attr_cases attrChildren "absent").1 rfl,
   (get_child_attr_cases attrChildren "d").2.1 "d"
     (.obj [("metadata", .obj [("tahoe", .obj [("linkcrtime", .num 5)])])])
     (.num 5) rfl rfl,
   (get_child_attr_cases attrChildren "f").2.2.1 "f"
     (.obj [("size", .num 3),
            ("metadata", .obj [("tahoe", .obj [("linkcrtime", .num 7)])])])
     (.num 7) (.num 3) rfl rfl rfl,
   (get_child_attr_cases attrChildren "s").2.2.2 "s" (.str "symlink")
     (.obj []) rfl rfl rfl⟩
